import Mathlib

/-!
Verification of the OTP-gated doctor-access flow of the emergency-profile
registry (src/medical/views.py), as a shallow embedding in Lean 4.

The embedding follows the source:

* timestamps are integers (seconds); a Django timedelta of m minutes is
  60 * m seconds;
* the per-(session, profile) OTP state dictionary stored under the
  session key otp_pending_<nid> becomes the structure OtpPending, and the
  doctor_access_<nid> family of session keys becomes SessionState;
* doctor_access POST action send_otp becomes issueOtp, action verify_otp
  becomes verifyOtp; form values are modelled as the raw strings and the
  source's .strip() calls as pyStrip;
* secrets.randbelow(1000000) is modelled as a function of an arbitrary
  entropy seed that always yields a value below the bound;
* the Python format f-string with the 06d conversion becomes formatCode06
  (exact for arguments below 1000000, the only values the source feeds it);
* the durable AccessLog table becomes a list of AccessLogEntry rows, and
  the Django queryset filter with created_at gte since becomes notifyRecent;
* _notify_owner_if_needed becomes notifyOwnerIfNeeded; the outcome of the
  collaborators is made explicit: dispatchOk is whether the mail delivery
  itself succeeds (send_mail is called with fail_silently true, so a
  delivery failure does NOT raise), and saveOk is whether the
  log_obj.save(update_fields) call succeeds (if it raises, the bare
  except swallows the error and the durable row keeps notified false).
-/

namespace EmergencyProfile

/-- Model of Python str.strip(): drop leading and trailing whitespace.
Defined over the character list with structural recursion so that it
evaluates by kernel reduction. -/
def pyStrip (s : String) : String :=
  String.mk ((((s.data.dropWhile Char.isWhitespace).reverse.dropWhile Char.isWhitespace).reverse))

/-- Model of the Python membership test of a character in a string. -/
def pyContains (s : String) (c : Char) : Bool :=
  s.data.contains c

/-- Decimal digit character for d mod 10, as produced by Python's d-format. -/
def digitChar (d : Nat) : Char := Char.ofNat (48 + d % 10)

/-- Embedding of the Python format expression with the 06d conversion used at
src/medical/views.py line 159, exact for arguments below 1000000 (the only
arguments the source produces, since the value comes from randbelow 1000000):
the six decimal digits of n, most significant first, with leading zeros. -/
def formatCode06 (n : Nat) : String :=
  String.mk [digitChar (n / 100000), digitChar (n / 10000), digitChar (n / 1000),
             digitChar (n / 100), digitChar (n / 10), digitChar n]

/-- Numeric value of a digit string (inverse of formatCode06 on 6-digit codes). -/
def codeValue (s : String) : Nat :=
  s.data.foldl (fun a c => 10 * a + (c.toNat - 48)) 0

/-- Model of secrets.randbelow bound: a draw from an arbitrary entropy seed,
always landing in the interval [0, bound). -/
def randbelow (bound seed : Nat) : Nat := seed % bound

/-- The pending-challenge dictionary stored under the otp_pending_<nid>
session key (src/medical/views.py lines 162-167). -/
structure OtpPending where
  email : String
  code : String
  expires_at : Int
  attempts : Nat
deriving Repr, DecidableEq

/-- The per-(session, profile) slice of the Django session: the pending OTP
challenge plus the doctor_access_<nid> grant keys (views.py lines 224-226). -/
structure SessionState where
  pending : Option OtpPending
  doctor_access : Bool
  doctor_access_email : Option String
  doctor_access_reason : Option String
deriving Repr, DecidableEq

/-- The session before any OTP interaction: no challenge, no grant. -/
def initSession : SessionState :=
  { pending := none, doctor_access := false,
    doctor_access_email := none, doctor_access_reason := none }

/-- Outcome of the send_otp action (views.py lines 152-183). -/
inductive IssueResult where
  | invalidEmail
  | issued
deriving Repr, DecidableEq

/-- Outcome of the verify_otp action, one constructor per distinct
user-facing failure (views.py lines 186-241). -/
inductive VerifyResult where
  | noChallenge
  | expired
  | tooManyAttempts
  | reasonRequired
  | invalidCode
  | success
deriving Repr, DecidableEq

/-- Embedding of the send_otp branch of doctor_access (views.py lines
152-183): validates the stripped email (non-empty, contains an at sign),
draws a 6-digit code, stores the challenge with attempts 0 and expiry
now + TTL minutes, overwriting any prior challenge for the pair. The
outbound code email is sent with fail_silently true and its outcome does
not affect the stored state, so it is not modelled. -/
def issueOtp (ttlMinutes : Nat) (now : Int) (st : SessionState)
    (rawEmail : String) (seed : Nat) : SessionState × IssueResult :=
  let email := pyStrip rawEmail
  if email = "" ∨ ¬ (pyContains email '@' = true) then
    (st, .invalidEmail)
  else
    let code := formatCode06 (randbelow 1000000 seed)
    let expires_at := now + 60 * (ttlMinutes : Int)
    ({ st with pending := some { email := email, code := code,
                                 expires_at := expires_at, attempts := 0 } },
     .issued)

/-- Embedding of the verify_otp branch of doctor_access (views.py lines
186-241), with the checks in source order: missing challenge, expiry
(strict, now > expires_at, clearing the challenge), attempts at the
maximum, empty stripped reason, then the code comparison (the source
guard is: code_input truthy and equal to the stored code). A mismatch
stores the challenge back with attempts + 1; a match deletes the
challenge and sets the three doctor_access grant keys. -/
def verifyOtp (maxAttempts : Nat) (now : Int) (st : SessionState)
    (rawCode rawReason : String) : SessionState × VerifyResult :=
  let codeInput := pyStrip rawCode
  let reason := pyStrip rawReason
  match st.pending with
  | none => (st, .noChallenge)
  | some p =>
    if now > p.expires_at then
      ({ st with pending := none }, .expired)
    else if p.attempts ≥ maxAttempts then
      (st, .tooManyAttempts)
    else if reason = "" then
      (st, .reasonRequired)
    else if codeInput ≠ "" ∧ codeInput = p.code then
      ({ pending := none, doctor_access := true,
         doctor_access_email := some p.email,
         doctor_access_reason := some reason }, .success)
    else
      ({ st with pending := some { p with attempts := p.attempts + 1 } }, .invalidCode)

/-- The slice of MedicalProfile the core reads (models.py line 42):
the natural key and the optional owner notification address. -/
structure Profile where
  national_id : String
  full_name : String
  owner_email : String
deriving Repr, DecidableEq

/-- A durable AccessLog row (models.py lines 153-176). The profile field
holds the owning profile's natural key. -/
structure AccessLogEntry where
  profile : String
  event_type : String
  viewer_email : String
  reason : String
  ip_address : String
  user_agent : String
  created_at : Int
  notified : Bool
deriving Repr, DecidableEq

/-- Embedding of the queryset filter in _notify_owner_if_needed (views.py
lines 258-260): does any row for this profile and event type carry
notified true with created_at at or after since. -/
def notifyRecent (log : List AccessLogEntry) (pid etype : String) (since : Int) : Bool :=
  log.any fun e =>
    e.profile == pid && e.event_type == etype && e.notified && decide (since ≤ e.created_at)

/-- Observable outcome of one _notify_owner_if_needed call: whether
send_mail was invoked, whether the delivery actually succeeded, and the
durable log row after the call. -/
structure NotifyOutcome where
  attempted : Bool
  delivered : Bool
  entry : AccessLogEntry
deriving Repr, DecidableEq

/-- Embedding of _notify_owner_if_needed (views.py lines 252-283).
Skips when owner_email is empty or a notified row of the queried
(profile, event type) pair lies within the cooldown window. Otherwise it
calls send_mail with fail_silently true: a delivery failure (dispatchOk
false) is swallowed inside the mail call and does not raise, so control
always reaches the flag update; the durable row keeps notified false only
when the save call itself raises (saveOk false), which the bare except
then swallows. -/
def notifyOwnerIfNeeded (cooldownMinutes : Int) (now : Int)
    (dispatchOk saveOk : Bool) (log : List AccessLogEntry)
    (profile : Profile) (eventType : String) (logObj : AccessLogEntry) : NotifyOutcome :=
  if profile.owner_email = "" then
    { attempted := false, delivered := false, entry := logObj }
  else
    let since := now - 60 * cooldownMinutes
    if notifyRecent log profile.national_id eventType since then
      { attempted := false, delivered := false, entry := logObj }
    else
      { attempted := true, delivered := dispatchOk,
        entry := if saveOk then { logObj with notified := true } else logObj }

/-- A fresh AccessLog row as created by the protected views: notified
defaults to false, created_at is the insertion time. -/
def mkLogEntry (profile : Profile) (etype viewerEmail reasonStr ip ua : String)
    (now : Int) : AccessLogEntry :=
  { profile := profile.national_id, event_type := etype,
    viewer_email := viewerEmail, reason := reasonStr,
    ip_address := ip, user_agent := ua, created_at := now, notified := false }

/-- Embedding of the logging and notification side effects of
doctor_profile_view (views.py lines 286-308): records a doctor_view row
and evaluates the notifier gate for the event type doctor_view. -/
def doctorProfileView (cooldownMinutes : Int) (now : Int) (dispatchOk saveOk : Bool)
    (log : List AccessLogEntry) (profile : Profile)
    (viewerEmail reasonStr ip ua : String) : AccessLogEntry × NotifyOutcome :=
  let logObj := mkLogEntry profile "doctor_view" viewerEmail reasonStr ip ua now
  (logObj, notifyOwnerIfNeeded cooldownMinutes now dispatchOk saveOk log profile "doctor_view" logObj)

/-- Embedding of the logging and notification side effects of
doctor_profile_download (views.py lines 313-333): records a
download_html row and evaluates the gate for download_html. -/
def doctorProfileDownload (cooldownMinutes : Int) (now : Int) (dispatchOk saveOk : Bool)
    (log : List AccessLogEntry) (profile : Profile)
    (viewerEmail reasonStr ip ua : String) : AccessLogEntry × NotifyOutcome :=
  let logObj := mkLogEntry profile "download_html" viewerEmail reasonStr ip ua now
  (logObj, notifyOwnerIfNeeded cooldownMinutes now dispatchOk saveOk log profile "download_html" logObj)

/-- Embedding of the logging and notification side effects of
doctor_profile_download_pdf (views.py lines 345-365): records a
download_pdf row and evaluates the gate for download_pdf. -/
def doctorProfileDownloadPdf (cooldownMinutes : Int) (now : Int) (dispatchOk saveOk : Bool)
    (log : List AccessLogEntry) (profile : Profile)
    (viewerEmail reasonStr ip ua : String) : AccessLogEntry × NotifyOutcome :=
  let logObj := mkLogEntry profile "download_pdf" viewerEmail reasonStr ip ua now
  (logObj, notifyOwnerIfNeeded cooldownMinutes now dispatchOk saveOk log profile "download_pdf" logObj)

/-- Embedding of the logging and notification side effects of
doctor_health_monitoring_view (views.py lines 501-520): records a
doctor_health_view row, but the source passes the literal doctor_view as
the gate's event type (line 520), so the gate is evaluated for
doctor_view while the recorded row carries doctor_health_view. -/
def doctorHealthMonitoringView (cooldownMinutes : Int) (now : Int) (dispatchOk saveOk : Bool)
    (log : List AccessLogEntry) (profile : Profile)
    (viewerEmail reasonStr ip ua : String) : AccessLogEntry × NotifyOutcome :=
  let logObj := mkLogEntry profile "doctor_health_view" viewerEmail reasonStr ip ua now
  (logObj, notifyOwnerIfNeeded cooldownMinutes now dispatchOk saveOk log profile "doctor_view" logObj)

/-- One user interaction with the doctor_access endpoint for a fixed
(session, profile) pair. -/
inductive Op where
  | issue (now : Int) (rawEmail : String) (seed : Nat)
  | verify (now : Int) (rawCode rawReason : String)

/-- State transition of one interaction (the session dictionary after the
request, results discarded). -/
def applyOp (ttlMinutes maxAttempts : Nat) (st : SessionState) : Op → SessionState
  | .issue now e s => (issueOtp ttlMinutes now st e s).1
  | .verify now c r => (verifyOtp maxAttempts now st c r).1

/-- The session reached from a fresh session by a sequence of interactions. -/
def runOps (ttlMinutes maxAttempts : Nat) (ops : List Op) : SessionState :=
  ops.foldl (applyOp ttlMinutes maxAttempts) initSession

/-! Helper lemmas about the code format. -/

theorem digitChar_toNat (d : Nat) : (digitChar d).toNat = 48 + d % 10 := by
  have h : d % 10 < 10 := Nat.mod_lt _ (by omega)
  unfold digitChar
  set r := d % 10 with hr
  interval_cases r <;> rfl

theorem digitChar_isDigit (d : Nat) : (digitChar d).isDigit = true := by
  have h : d % 10 < 10 := Nat.mod_lt _ (by omega)
  unfold digitChar
  set r := d % 10 with hr
  interval_cases r <;> rfl

theorem formatCode06_length (n : Nat) : (formatCode06 n).length = 6 := rfl

theorem formatCode06_isDigit (n : Nat) :
    ∀ c ∈ (formatCode06 n).data, c.isDigit = true := by
  intro c hc
  simp only [formatCode06, String.mk] at hc
  simp only [List.mem_cons, List.not_mem_nil, or_false] at hc
  rcases hc with h | h | h | h | h | h <;> subst h <;> exact digitChar_isDigit _

theorem formatCode06_ne_empty (n : Nat) : formatCode06 n ≠ "" := by
  intro h
  have := congrArg String.length h
  rw [formatCode06_length n] at this
  simp [String.length] at this

theorem codeValue_formatCode06 (n : Nat) (h : n < 1000000) :
    codeValue (formatCode06 n) = n := by
  simp only [codeValue, formatCode06, String.mk, List.foldl, digitChar_toNat]
  omega

/-! Branch characterizations of verifyOtp, one per source branch, each
conditioned on the guards of all earlier branches failing, exactly as in
the source's control flow. -/

theorem verifyOtp_noChallenge (maxA : Nat) (now : Int) (st : SessionState)
    (rawCode rawReason : String) (hp : st.pending = none) :
    verifyOtp maxA now st rawCode rawReason = (st, .noChallenge) := by
  simp [verifyOtp, hp]

theorem verifyOtp_expired (maxA : Nat) (now : Int) (st : SessionState) (p : OtpPending)
    (rawCode rawReason : String) (hp : st.pending = some p)
    (hexp : now > p.expires_at) :
    verifyOtp maxA now st rawCode rawReason = ({ st with pending := none }, .expired) := by
  simp [verifyOtp, hp, hexp]

theorem verifyOtp_tooMany (maxA : Nat) (now : Int) (st : SessionState) (p : OtpPending)
    (rawCode rawReason : String) (hp : st.pending = some p)
    (hexp : ¬ now > p.expires_at) (hatt : p.attempts ≥ maxA) :
    verifyOtp maxA now st rawCode rawReason = (st, .tooManyAttempts) := by
  simp [verifyOtp, hp, hexp, hatt]

theorem verifyOtp_reasonRequired (maxA : Nat) (now : Int) (st : SessionState) (p : OtpPending)
    (rawCode rawReason : String) (hp : st.pending = some p)
    (hexp : ¬ now > p.expires_at) (hatt : p.attempts < maxA)
    (hreason : pyStrip rawReason = "") :
    verifyOtp maxA now st rawCode rawReason = (st, .reasonRequired) := by
  have hatt' : ¬ p.attempts ≥ maxA := by omega
  simp [verifyOtp, hp, hexp, hatt', hreason]

theorem verifyOtp_invalidCode (maxA : Nat) (now : Int) (st : SessionState) (p : OtpPending)
    (rawCode rawReason : String) (hp : st.pending = some p)
    (hexp : ¬ now > p.expires_at) (hatt : p.attempts < maxA)
    (hreason : pyStrip rawReason ≠ "")
    (hcode : ¬ (pyStrip rawCode ≠ "" ∧ pyStrip rawCode = p.code)) :
    verifyOtp maxA now st rawCode rawReason =
      ({ st with pending := some { p with attempts := p.attempts + 1 } }, .invalidCode) := by
  have hatt' : ¬ p.attempts ≥ maxA := by omega
  simp only [verifyOtp, hp]
  rw [if_neg hexp, if_neg hatt', if_neg hreason, if_neg hcode]

theorem verifyOtp_success (maxA : Nat) (now : Int) (st : SessionState) (p : OtpPending)
    (rawCode rawReason : String) (hp : st.pending = some p)
    (hexp : ¬ now > p.expires_at) (hatt : p.attempts < maxA)
    (hreason : pyStrip rawReason ≠ "")
    (hne : pyStrip rawCode ≠ "") (hcode : pyStrip rawCode = p.code) :
    verifyOtp maxA now st rawCode rawReason =
      ({ pending := none, doctor_access := true,
         doctor_access_email := some p.email,
         doctor_access_reason := some (pyStrip rawReason) }, .success) := by
  have hatt' : ¬ p.attempts ≥ maxA := by omega
  simp only [verifyOtp, hp]
  rw [if_neg hexp, if_neg hatt', if_neg hreason, if_pos ⟨hne, hcode⟩]

/-- C3: for every (session, profile) pair and every verify call, the checks
run in source order with these effects: (1) no pending challenge fails with
noChallenge; (2) an expired challenge (now strictly past expires_at) is
cleared and fails with expired; (3) attempts at or above the maximum fails
with tooManyAttempts; (4) an empty reason fails with reasonRequired; (5)
only then is the submitted code compared by exact string match to the
stored code: a mismatch increments attempts and fails with invalidCode,
and a match clears the challenge and creates the grant. -/
theorem C3_verify_check_order (maxA : Nat) (now : Int) (st : SessionState)
    (rawCode rawReason : String) :
    (st.pending = none → verifyOtp maxA now st rawCode rawReason = (st, .noChallenge)) ∧
    (∀ p, st.pending = some p → now > p.expires_at →
      verifyOtp maxA now st rawCode rawReason = ({ st with pending := none }, .expired)) ∧
    (∀ p, st.pending = some p → ¬ now > p.expires_at → p.attempts ≥ maxA →
      verifyOtp maxA now st rawCode rawReason = (st, .tooManyAttempts)) ∧
    (∀ p, st.pending = some p → ¬ now > p.expires_at → p.attempts < maxA →
      pyStrip rawReason = "" →
      verifyOtp maxA now st rawCode rawReason = (st, .reasonRequired)) ∧
    (∀ p, st.pending = some p → ¬ now > p.expires_at → p.attempts < maxA →
      pyStrip rawReason ≠ "" → pyStrip rawCode ≠ p.code →
      verifyOtp maxA now st rawCode rawReason =
        ({ st with pending := some { p with attempts := p.attempts + 1 } }, .invalidCode)) ∧
    (∀ p, st.pending = some p → ¬ now > p.expires_at → p.attempts < maxA →
      pyStrip rawReason ≠ "" → pyStrip rawCode ≠ "" → pyStrip rawCode = p.code →
      verifyOtp maxA now st rawCode rawReason =
        ({ pending := none, doctor_access := true, doctor_access_email := some p.email,
           doctor_access_reason := some (pyStrip rawReason) }, .success)) := by
  refine ⟨fun hp => verifyOtp_noChallenge maxA now st rawCode rawReason hp,
          fun p hp hexp => verifyOtp_expired maxA now st p rawCode rawReason hp hexp,
          fun p hp hexp hatt => verifyOtp_tooMany maxA now st p rawCode rawReason hp hexp hatt,
          fun p hp hexp hatt hr => verifyOtp_reasonRequired maxA now st p rawCode rawReason hp hexp hatt hr,
          fun p hp hexp hatt hr hcode =>
            verifyOtp_invalidCode maxA now st p rawCode rawReason hp hexp hatt hr
              (fun hand => hcode hand.2),
          fun p hp hexp hatt hr hne hcode =>
            verifyOtp_success maxA now st p rawCode rawReason hp hexp hatt hr hne hcode⟩

/-- Witness for C3: the missing-challenge branch on the fresh session, and
the success branch on a concrete pending challenge. -/
theorem C3_verify_check_order_witness :
    verifyOtp 5 0 initSession "1" "r" = (initSession, .noChallenge) ∧
    verifyOtp 5 1 ⟨some ⟨"a@b", "000042", 300, 0⟩, false, none, none⟩ "000042" "why" =
      (⟨none, true, some "a@b", some "why"⟩, .success) :=
  ⟨(C3_verify_check_order 5 0 initSession "1" "r").1 rfl,
   (C3_verify_check_order 5 1 ⟨some ⟨"a@b", "000042", 300, 0⟩, false, none, none⟩
      "000042" "why").2.2.2.2.2 ⟨"a@b", "000042", 300, 0⟩ rfl (by decide) (by decide)
      (by decide) (by decide) (by decide)⟩

/-- C5: once the attempts counter of a pending challenge has reached the
maximum, any further verify, even with the correct code and a non-empty
reason, fails with tooManyAttempts; the session is returned unchanged, so
the attempts counter is not mutated and the challenge remains pending. -/
theorem C5_locked_after_max_attempts (maxA : Nat) (now : Int) (st : SessionState)
    (p : OtpPending) (rawCode rawReason : String)
    (hp : st.pending = some p) (hexp : ¬ now > p.expires_at) (hatt : p.attempts ≥ maxA) :
    verifyOtp maxA now st rawCode rawReason = (st, .tooManyAttempts) :=
  verifyOtp_tooMany maxA now st p rawCode rawReason hp hexp hatt

/-- Witness for C5: a challenge with 5 attempts out of a maximum of 5,
submitted with the correct code and a non-empty reason, is rejected
without any change to the session. -/
theorem C5_locked_after_max_attempts_witness :
    verifyOtp 5 0 ⟨some ⟨"a@b", "000042", 300, 5⟩, false, none, none⟩ "000042" "why" =
      (⟨some ⟨"a@b", "000042", 300, 5⟩, false, none, none⟩, .tooManyAttempts) :=
  C5_locked_after_max_attempts 5 0 ⟨some ⟨"a@b", "000042", 300, 5⟩, false, none, none⟩
    ⟨"a@b", "000042", 300, 5⟩ "000042" "why" rfl (by decide) (by decide)

/-- C6: verify at any time strictly after expires_at (in particular at
expires_at + 1) clears the challenge and fails with expired, returning the
state to the no-challenge configuration; verify at expires_at - 1 with the
correct code and a non-empty reason (attempts below the maximum) succeeds. -/
theorem C6_expiry_boundary (maxA : Nat) (st : SessionState) (p : OtpPending)
    (rawCode rawReason : String) (hp : st.pending = some p)
    (hatt : p.attempts < maxA) (hreason : pyStrip rawReason ≠ "")
    (hne : pyStrip rawCode ≠ "") (hcode : pyStrip rawCode = p.code) :
    (∀ now : Int, now > p.expires_at →
      verifyOtp maxA now st rawCode rawReason = ({ st with pending := none }, .expired)) ∧
    verifyOtp maxA (p.expires_at - 1) st rawCode rawReason =
      ({ pending := none, doctor_access := true, doctor_access_email := some p.email,
         doctor_access_reason := some (pyStrip rawReason) }, .success) := by
  refine ⟨fun now hnow => verifyOtp_expired maxA now st p rawCode rawReason hp hnow, ?_⟩
  exact verifyOtp_success maxA (p.expires_at - 1) st p rawCode rawReason hp
    (by omega) hatt hreason hne hcode

/-- Witness for C6: a challenge expiring at 300 is cleared and rejected at
301, and accepted at 299 with the correct code. -/
theorem C6_expiry_boundary_witness :
    verifyOtp 5 301 ⟨some ⟨"a@b", "000042", 300, 0⟩, false, none, none⟩ "000042" "why" =
      (⟨none, false, none, none⟩, .expired) ∧
    verifyOtp 5 299 ⟨some ⟨"a@b", "000042", 300, 0⟩, false, none, none⟩ "000042" "why" =
      (⟨none, true, some "a@b", some "why"⟩, .success) :=
  ⟨(C6_expiry_boundary 5 ⟨some ⟨"a@b", "000042", 300, 0⟩, false, none, none⟩
      ⟨"a@b", "000042", 300, 0⟩ "000042" "why" rfl (by decide) (by decide) (by decide)
      (by decide)).1 301 (by decide),
   (C6_expiry_boundary 5 ⟨some ⟨"a@b", "000042", 300, 0⟩, false, none, none⟩
      ⟨"a@b", "000042", 300, 0⟩ "000042" "why" rfl (by decide) (by decide) (by decide)
      (by decide)).2⟩

/-- C7: a verify call whose stripped reason is empty never increments the
attempts counter, whatever the submitted code: the pending slot is either
left exactly as it was or cleared by the earlier expiry check; and when
the challenge is live (not expired, attempts below the maximum) the call
fails with reasonRequired and the session is returned unchanged. -/
theorem C7_empty_reason_no_attempt_cost (maxA : Nat) (now : Int) (st : SessionState)
    (rawCode rawReason : String) (hreason : pyStrip rawReason = "") :
    ((verifyOtp maxA now st rawCode rawReason).1.pending = st.pending ∨
      ((verifyOtp maxA now st rawCode rawReason).1.pending = none ∧
        (verifyOtp maxA now st rawCode rawReason).2 = .expired)) ∧
    (∀ p, st.pending = some p → ¬ now > p.expires_at → p.attempts < maxA →
      verifyOtp maxA now st rawCode rawReason = (st, .reasonRequired)) := by
  constructor
  · cases hp : st.pending with
    | none => rw [verifyOtp_noChallenge maxA now st rawCode rawReason hp]; exact Or.inl hp
    | some p =>
      by_cases hexp : now > p.expires_at
      · rw [verifyOtp_expired maxA now st p rawCode rawReason hp hexp]
        exact Or.inr ⟨rfl, rfl⟩
      · by_cases hatt : p.attempts ≥ maxA
        · rw [verifyOtp_tooMany maxA now st p rawCode rawReason hp hexp hatt]
          exact Or.inl hp
        · rw [verifyOtp_reasonRequired maxA now st p rawCode rawReason hp hexp
            (by omega) hreason]
          exact Or.inl hp
  · intro p hp hexp hatt
    exact verifyOtp_reasonRequired maxA now st p rawCode rawReason hp hexp hatt hreason

/-- Witness for C7: an empty (whitespace-only) reason with the correct
code is rejected with reasonRequired and the challenge is unchanged. -/
theorem C7_empty_reason_no_attempt_cost_witness :
    verifyOtp 5 1 ⟨some ⟨"a@b", "000042", 300, 0⟩, false, none, none⟩ "000042" "  " =
      (⟨some ⟨"a@b", "000042", 300, 0⟩, false, none, none⟩, .reasonRequired) :=
  (C7_empty_reason_no_attempt_cost 5 1 ⟨some ⟨"a@b", "000042", 300, 0⟩, false, none, none⟩
      "000042" "  " (by decide)).2 ⟨"a@b", "000042", 300, 0⟩ rfl (by decide) (by decide)

/-- Characterization of a successful issue: when send_otp reports issued,
the stored challenge holds the stripped email, the formatted drawn code,
expiry now + TTL, and attempts 0; the rest of the session is untouched. -/
theorem issueOtp_issued (ttl : Nat) (now : Int) (st : SessionState)
    (rawEmail : String) (seed : Nat)
    (h : (issueOtp ttl now st rawEmail seed).2 = .issued) :
    (issueOtp ttl now st rawEmail seed).1 =
      { st with pending := some ⟨pyStrip rawEmail,
          formatCode06 (randbelow 1000000 seed), now + 60 * (ttl : Int), 0⟩ } := by
  by_cases hc : pyStrip rawEmail = "" ∨ ¬ (pyContains (pyStrip rawEmail) '@' = true)
  · exfalso
    have hbad : (issueOtp ttl now st rawEmail seed).2 = .invalidEmail := by
      simp only [issueOtp]; rw [if_pos hc]
    rw [hbad] at h
    exact absurd h (by simp)
  · simp only [issueOtp]; rw [if_neg hc]

/-- C4: for every state and valid email (the issue reports issued), issue
followed by verify with the exact issued code and a non-empty reason,
within the TTL and with a positive attempt budget, succeeds: the
challenge is consumed and the grant carries the verifier email and the
reason. A second verify with the same inputs then fails with noChallenge:
the success happens exactly once. -/
theorem C4_issue_then_verify_once (ttl maxA : Nat) (now now2 : Int) (st : SessionState)
    (rawEmail rawCode rawReason : String) (seed : Nat)
    (hmax : 0 < maxA)
    (hissued : (issueOtp ttl now st rawEmail seed).2 = .issued)
    (hreason : pyStrip rawReason ≠ "")
    (hnow2 : ¬ now2 > now + 60 * (ttl : Int))
    (hcode : pyStrip rawCode = formatCode06 (randbelow 1000000 seed)) :
    verifyOtp maxA now2 (issueOtp ttl now st rawEmail seed).1 rawCode rawReason =
      (⟨none, true, some (pyStrip rawEmail), some (pyStrip rawReason)⟩, .success) ∧
    verifyOtp maxA now2
        (verifyOtp maxA now2 (issueOtp ttl now st rawEmail seed).1 rawCode rawReason).1
        rawCode rawReason =
      ((verifyOtp maxA now2 (issueOtp ttl now st rawEmail seed).1 rawCode rawReason).1,
        .noChallenge) := by
  have h1 := issueOtp_issued ttl now st rawEmail seed hissued
  have hne : pyStrip rawCode ≠ "" := by rw [hcode]; exact formatCode06_ne_empty _
  have hsucc := verifyOtp_success maxA now2 (issueOtp ttl now st rawEmail seed).1
    ⟨pyStrip rawEmail, formatCode06 (randbelow 1000000 seed), now + 60 * (ttl : Int), 0⟩
    rawCode rawReason (by rw [h1]) hnow2 hmax hreason hne hcode
  refine ⟨hsucc, ?_⟩
  rw [hsucc]
  exact verifyOtp_noChallenge maxA now2 _ rawCode rawReason rfl

/-- Witness for C4: issuing with seed 42 stores code 000042; verifying it
with reason routine succeeds once and a repeat fails with noChallenge. -/
theorem C4_issue_then_verify_once_witness :
    verifyOtp 5 60 (issueOtp 5 0 initSession "a@b.c" 42).1 "000042" "routine" =
      (⟨none, true, some "a@b.c", some "routine"⟩, .success) ∧
    verifyOtp 5 60 (verifyOtp 5 60 (issueOtp 5 0 initSession "a@b.c" 42).1 "000042" "routine").1
        "000042" "routine" =
      ((verifyOtp 5 60 (issueOtp 5 0 initSession "a@b.c" 42).1 "000042" "routine").1,
        .noChallenge) :=
  C4_issue_then_verify_once 5 5 0 60 initSession "a@b.c" "000042" "routine" 42
    (by decide) (by decide) (by decide) (by decide) (by decide)

/-- C8: every code stored by a successful issue is the drawn value below
1000000 rendered as exactly 6 decimal digit characters with leading zeros
preserved, and it decodes back to that value; in particular a drawn value
of 42 is stored as the string 000042. -/
theorem C8_code_six_digits (ttl : Nat) (now : Int) (st : SessionState)
    (rawEmail : String) (seed : Nat)
    (hissued : (issueOtp ttl now st rawEmail seed).2 = .issued) :
    (∃ p, (issueOtp ttl now st rawEmail seed).1.pending = some p ∧
      p.code = formatCode06 (randbelow 1000000 seed) ∧
      p.code.length = 6 ∧
      (∀ c ∈ p.code.data, c.isDigit = true) ∧
      codeValue p.code = randbelow 1000000 seed ∧
      randbelow 1000000 seed < 1000000) ∧
    formatCode06 42 = "000042" := by
  have h1 := issueOtp_issued ttl now st rawEmail seed hissued
  have hb : randbelow 1000000 seed < 1000000 := Nat.mod_lt _ (by omega)
  refine ⟨⟨⟨pyStrip rawEmail, formatCode06 (randbelow 1000000 seed),
             now + 60 * (ttl : Int), 0⟩,
          by rw [h1], rfl, formatCode06_length _, formatCode06_isDigit _,
          codeValue_formatCode06 _ hb, hb⟩, by decide⟩

/-- Witness for C8: a concrete issue with seed 42. -/
theorem C8_code_six_digits_witness :
    (∃ p, (issueOtp 5 0 initSession "a@b" 42).1.pending = some p ∧
      p.code = formatCode06 (randbelow 1000000 42) ∧
      p.code.length = 6 ∧
      (∀ c ∈ p.code.data, c.isDigit = true) ∧
      codeValue p.code = randbelow 1000000 42 ∧
      randbelow 1000000 42 < 1000000) ∧
    formatCode06 42 = "000042" :=
  C8_code_six_digits 5 0 initSession "a@b" 42 (by decide)

/-- Preservation of the attempts bound by one interaction: if every
pending challenge in the state respects the bound, so does the state
after one issue or verify request. -/
theorem applyOp_attempts_le (ttl maxA : Nat) (st : SessionState) (op : Op)
    (h : ∀ p, st.pending = some p → p.attempts ≤ maxA) :
    ∀ p, (applyOp ttl maxA st op).pending = some p → p.attempts ≤ maxA := by
  cases op with
  | issue now e s =>
    intro p hp
    by_cases hc : pyStrip e = "" ∨ ¬ (pyContains (pyStrip e) '@' = true)
    · have heq : applyOp ttl maxA st (.issue now e s) = st := by
        simp only [applyOp, issueOtp]; rw [if_pos hc]
      rw [heq] at hp
      exact h p hp
    · have heq : applyOp ttl maxA st (.issue now e s) =
          { st with pending := some ⟨pyStrip e,
              formatCode06 (randbelow 1000000 s), now + 60 * (ttl : Int), 0⟩ } := by
        simp only [applyOp, issueOtp]; rw [if_neg hc]
      rw [heq] at hp
      replace hp : some (⟨pyStrip e, formatCode06 (randbelow 1000000 s),
          now + 60 * (ttl : Int), 0⟩ : OtpPending) = some p := hp
      injection hp with hp
      rw [← hp]
      exact Nat.zero_le _
  | verify now c r =>
    intro p hp
    replace hp : (verifyOtp maxA now st c r).1.pending = some p := hp
    cases hps : st.pending with
    | none =>
      rw [verifyOtp_noChallenge maxA now st c r hps] at hp
      exact h p hp
    | some q =>
      by_cases hexp : now > q.expires_at
      · rw [verifyOtp_expired maxA now st q c r hps hexp] at hp
        exact absurd hp (by simp)
      · by_cases hatt : q.attempts ≥ maxA
        · rw [verifyOtp_tooMany maxA now st q c r hps hexp hatt] at hp
          exact h p hp
        · by_cases hr : pyStrip r = ""
          · rw [verifyOtp_reasonRequired maxA now st q c r hps hexp (by omega) hr] at hp
            exact h p hp
          · by_cases hcd : pyStrip c ≠ "" ∧ pyStrip c = q.code
            · rw [verifyOtp_success maxA now st q c r hps hexp (by omega) hr hcd.1 hcd.2] at hp
              exact absurd hp (by simp)
            · rw [verifyOtp_invalidCode maxA now st q c r hps hexp (by omega) hr hcd] at hp
              replace hp : some { q with attempts := q.attempts + 1 } = some p := hp
              injection hp with hp
              rw [← hp]
              simp only []
              omega

/-- C10: in every session reachable from a fresh session through issue
and verify interactions, the pending challenge's attempts counter (a
natural number, hence at least 0) never exceeds the configured maximum:
issue initialises it to 0, and verify increments it only when it is still
strictly below the maximum. -/
theorem C10_attempts_invariant (ttl maxA : Nat) (ops : List Op) :
    ∀ p, (runOps ttl maxA ops).pending = some p → p.attempts ≤ maxA := by
  have main : ∀ (l : List Op) (st : SessionState),
      (∀ p, st.pending = some p → p.attempts ≤ maxA) →
      ∀ p, (l.foldl (applyOp ttl maxA) st).pending = some p → p.attempts ≤ maxA := by
    intro l
    induction l with
    | nil => intro st h; simpa using h
    | cons op tl ih =>
      intro st h
      exact ih (applyOp ttl maxA st op) (applyOp_attempts_le ttl maxA st op h)
  intro p hp
  exact main ops initSession (fun q hq => by simp [initSession] at hq) p hp

/-- Witness for C10: after an issue and one wrong-code verify, the
counter stands at 1, within the bound 5. -/
theorem C10_attempts_invariant_witness :
    (runOps 5 5 [.issue 0 "a@b" 7, .verify 1 "wrong" "why"]).pending =
      some ⟨"a@b", "000007", 300, 1⟩ ∧
    (⟨"a@b", "000007", 300, 1⟩ : OtpPending).attempts ≤ 5 :=
  ⟨by decide, C10_attempts_invariant 5 5 [.issue 0 "a@b" 7, .verify 1 "wrong" "why"]
      ⟨"a@b", "000007", 300, 1⟩ (by decide)⟩

/-! Branch characterizations of notifyOwnerIfNeeded. -/

theorem notifyOwnerIfNeeded_skip_recent (cooldownMinutes now : Int)
    (dispatchOk saveOk : Bool) (log : List AccessLogEntry) (profile : Profile)
    (eventType : String) (logObj : AccessLogEntry)
    (howner : ¬ profile.owner_email = "")
    (hrec : notifyRecent log profile.national_id eventType (now - 60 * cooldownMinutes) = true) :
    notifyOwnerIfNeeded cooldownMinutes now dispatchOk saveOk log profile eventType logObj =
      { attempted := false, delivered := false, entry := logObj } := by
  simp [notifyOwnerIfNeeded, howner, hrec]

theorem notifyOwnerIfNeeded_send (cooldownMinutes now : Int)
    (dispatchOk saveOk : Bool) (log : List AccessLogEntry) (profile : Profile)
    (eventType : String) (logObj : AccessLogEntry)
    (howner : ¬ profile.owner_email = "")
    (hrec : notifyRecent log profile.national_id eventType (now - 60 * cooldownMinutes) = false) :
    notifyOwnerIfNeeded cooldownMinutes now dispatchOk saveOk log profile eventType logObj =
      { attempted := true, delivered := dispatchOk,
        entry := if saveOk then { logObj with notified := true } else logObj } := by
  simp [notifyOwnerIfNeeded, howner, hrec]

/-- C1 counterexample: a notification whose dispatch fails (dispatchOk
false) while the flag save succeeds still ends with the durable entry's
notified flag set to true, because send_mail is invoked with
fail_silently true and so a dispatch failure raises nothing: the claim
that a failed dispatch leaves notified false is refuted at this input. -/
theorem C1_dispatch_failure_counterexample :
    (notifyOwnerIfNeeded 30 0 false true []
        ⟨"ID1", "Pat Doe", "own@x"⟩ "doctor_view"
        ⟨"ID1", "doctor_view", "v@x", "check", "1.2.3.4", "ua", 0, false⟩).delivered = false ∧
    (notifyOwnerIfNeeded 30 0 false true []
        ⟨"ID1", "Pat Doe", "own@x"⟩ "doctor_view"
        ⟨"ID1", "doctor_view", "v@x", "check", "1.2.3.4", "ua", 0, false⟩).attempted = true ∧
    (notifyOwnerIfNeeded 30 0 false true []
        ⟨"ID1", "Pat Doe", "own@x"⟩ "doctor_view"
        ⟨"ID1", "doctor_view", "v@x", "check", "1.2.3.4", "ua", 0, false⟩).entry.notified =
      true := by
  decide

/-- C1 (amended): when the gate decides to notify (owner email present,
no notified entry of the queried pair within the cooldown), the error of
a failed dispatch is swallowed and the entry's notified flag is set to
true whenever persisting the flag succeeds, independently of the dispatch
outcome; the flag stays false only when the save itself fails. -/
theorem C1_notify_flag_follows_save (cooldownMinutes now : Int)
    (dispatchOk saveOk : Bool) (log : List AccessLogEntry) (profile : Profile)
    (eventType : String) (logObj : AccessLogEntry)
    (howner : ¬ profile.owner_email = "")
    (hfresh : logObj.notified = false)
    (hrec : notifyRecent log profile.national_id eventType (now - 60 * cooldownMinutes) = false) :
    (notifyOwnerIfNeeded cooldownMinutes now dispatchOk saveOk log profile eventType
        logObj).attempted = true ∧
    (notifyOwnerIfNeeded cooldownMinutes now dispatchOk saveOk log profile eventType
        logObj).delivered = dispatchOk ∧
    (notifyOwnerIfNeeded cooldownMinutes now dispatchOk saveOk log profile eventType
        logObj).entry.notified = saveOk := by
  rw [notifyOwnerIfNeeded_send cooldownMinutes now dispatchOk saveOk log profile eventType
    logObj howner hrec]
  refine ⟨rfl, rfl, ?_⟩
  cases saveOk <;> simp [hfresh]

/-- Witness for C1 (amended): dispatch fails, save succeeds, flag true. -/
theorem C1_notify_flag_follows_save_witness :
    (notifyOwnerIfNeeded 30 0 false true []
        ⟨"ID1", "Pat Doe", "own@x"⟩ "download_html"
        ⟨"ID1", "download_html", "v@x", "check", "1.2.3.4", "ua", 0, false⟩).attempted = true ∧
    (notifyOwnerIfNeeded 30 0 false true []
        ⟨"ID1", "Pat Doe", "own@x"⟩ "download_html"
        ⟨"ID1", "download_html", "v@x", "check", "1.2.3.4", "ua", 0, false⟩).delivered = false ∧
    (notifyOwnerIfNeeded 30 0 false true []
        ⟨"ID1", "Pat Doe", "own@x"⟩ "download_html"
        ⟨"ID1", "download_html", "v@x", "check", "1.2.3.4", "ua", 0, false⟩).entry.notified =
      true :=
  C1_notify_flag_follows_save 30 0 false true [] ⟨"ID1", "Pat Doe", "own@x"⟩ "download_html"
    ⟨"ID1", "download_html", "v@x", "check", "1.2.3.4", "ua", 0, false⟩
    (by decide) (by decide) (by decide)

/-- C2 (code evaluated at the failing input): the health-monitoring view
records a row with event type doctor_health_view, yet a notified
doctor_health_view row only 10 minutes old (well inside the 30-minute
cooldown) does not suppress a new notification, because the source passes
the literal doctor_view to the gate; by contrast the doctor-profile view,
whose recorded type matches its gate argument, is suppressed in the
analogous situation. -/
theorem C2_health_view_gate_mismatch :
    (doctorHealthMonitoringView 30 600 true true
        [⟨"ID1", "doctor_health_view", "v@x", "check", "1.2.3.4", "ua", 0, true⟩]
        ⟨"ID1", "Pat Doe", "own@x"⟩ "v@x" "check" "1.2.3.4" "ua").1.event_type =
      "doctor_health_view" ∧
    (doctorHealthMonitoringView 30 600 true true
        [⟨"ID1", "doctor_health_view", "v@x", "check", "1.2.3.4", "ua", 0, true⟩]
        ⟨"ID1", "Pat Doe", "own@x"⟩ "v@x" "check" "1.2.3.4" "ua").2.attempted = true ∧
    (doctorProfileView 30 600 true true
        [⟨"ID1", "doctor_view", "v@x", "check", "1.2.3.4", "ua", 0, true⟩]
        ⟨"ID1", "Pat Doe", "own@x"⟩ "v@x" "check" "1.2.3.4" "ua").2.attempted = false := by
  decide

/-- C9: with a 30-minute cooldown, a profile whose owner email is set,
and a log whose most recent notified doctor_view row was created at T, a
doctor_view notification 10 minutes after T is suppressed, while one 31
minutes after T goes out. -/
theorem C9_cooldown_window (T : Int) (dispatchOk saveOk : Bool)
    (log : List AccessLogEntry) (profile : Profile) (e0 entry2 entry3 : AccessLogEntry)
    (howner : ¬ profile.owner_email = "")
    (he0 : e0 ∈ log) (he0p : e0.profile = profile.national_id)
    (he0t : e0.event_type = "doctor_view") (he0n : e0.notified = true)
    (he0c : e0.created_at = T)
    (hlatest : ∀ e ∈ log, e.profile = profile.national_id → e.event_type = "doctor_view" →
      e.notified = true → e.created_at ≤ T) :
    (notifyOwnerIfNeeded 30 (T + 600) dispatchOk saveOk log profile "doctor_view"
        entry2).attempted = false ∧
    (notifyOwnerIfNeeded 30 (T + 1860) dispatchOk saveOk log profile "doctor_view"
        entry3).attempted = true := by
  constructor
  · have hrec : notifyRecent log profile.national_id "doctor_view"
        (T + 600 - 60 * 30) = true := by
      unfold notifyRecent
      rw [List.any_eq_true]
      refine ⟨e0, he0, ?_⟩
      simp [he0p, he0t, he0n, he0c]
    rw [notifyOwnerIfNeeded_skip_recent 30 (T + 600) dispatchOk saveOk log profile
      "doctor_view" entry2 howner hrec]
  · have hrec : notifyRecent log profile.national_id "doctor_view"
        (T + 1860 - 60 * 30) = false := by
      unfold notifyRecent
      rw [List.any_eq_false]
      intro e he
      simp only [Bool.and_eq_true, beq_iff_eq, decide_eq_true_eq, not_and]
      intro hpe hte
      have := hlatest e he hpe.1.1 hpe.1.2 hpe.2
      omega
    rw [notifyOwnerIfNeeded_send 30 (T + 1860) dispatchOk saveOk log profile
      "doctor_view" entry3 howner hrec]

/-- Witness for C9: one notified doctor_view row at time 0; the follow-up
access at 600 seconds is silent and the one at 1860 seconds notifies. -/
theorem C9_cooldown_window_witness :
    (notifyOwnerIfNeeded 30 600 true true
        [⟨"ID1", "doctor_view", "v@x", "check", "1.2.3.4", "ua", 0, true⟩]
        ⟨"ID1", "Pat Doe", "own@x"⟩ "doctor_view"
        ⟨"ID1", "doctor_view", "v@x", "check", "1.2.3.4", "ua", 600, false⟩).attempted =
      false ∧
    (notifyOwnerIfNeeded 30 1860 true true
        [⟨"ID1", "doctor_view", "v@x", "check", "1.2.3.4", "ua", 0, true⟩]
        ⟨"ID1", "Pat Doe", "own@x"⟩ "doctor_view"
        ⟨"ID1", "doctor_view", "v@x", "check", "1.2.3.4", "ua", 1860, false⟩).attempted =
      true :=
  C9_cooldown_window 0 true true
    [⟨"ID1", "doctor_view", "v@x", "check", "1.2.3.4", "ua", 0, true⟩]
    ⟨"ID1", "Pat Doe", "own@x"⟩
    ⟨"ID1", "doctor_view", "v@x", "check", "1.2.3.4", "ua", 0, true⟩
    ⟨"ID1", "doctor_view", "v@x", "check", "1.2.3.4", "ua", 600, false⟩
    ⟨"ID1", "doctor_view", "v@x", "check", "1.2.3.4", "ua", 1860, false⟩
    (by decide) (by decide) (by decide) (by decide) (by decide) (by decide)
    (by decide)

end EmergencyProfile
